import Mathlib

/-!
Verification of the constant-product liquidity simulator in
`liquidity-sim.py` (PulseChain downloadable-data tools).

The pool state and trade operations are embedded shallowly over ℚ:
Python floats become exact rationals, so the "within floating-point
tolerance" properties of the spec are settled exactly.  Division in ℚ is
total with `x / 0 = 0`; wherever the Python source would instead raise
`ZeroDivisionError`, the theorems below carry hypotheses that keep every
divisor nonzero, so the embedding and the source agree on all inputs the
theorems speak about.
-/

namespace LiquiditySim

/-- Pool state of `DEXSimulator` (`liquidity-sim.py`, lines 65-73):
two reserves, the frozen product invariant `k`, and display symbols. -/
structure DEXSimulator where
  token_symbol : String
  base_symbol : String
  reserve_usd : ℚ
  reserve_token : ℚ
  k : ℚ
deriving Repr, DecidableEq

/-- `DEXSimulator.__init__` (lines 66-73): splits the observed liquidity
evenly, derives the token reserve from the price and freezes
`k = reserve_usd * reserve_token`.  The Python constructor performs no
validation of its numeric arguments; with `token_price = 0` Python raises
`ZeroDivisionError` (here total division returns `0`). -/
def DEXSimulator.init (total_liquidity_usd token_price : ℚ)
    (token_symbol : String) : DEXSimulator :=
  let reserve_usd := total_liquidity_usd / 2
  let reserve_token := reserve_usd / token_price
  { token_symbol := token_symbol
    base_symbol := "USD"
    reserve_usd := reserve_usd
    reserve_token := reserve_token
    k := reserve_usd * reserve_token }

/-- `DEXSimulator.get_price` (lines 75-76): the quote-per-base price. -/
def DEXSimulator.get_price (s : DEXSimulator) : ℚ :=
  s.reserve_usd / s.reserve_token

/-- `DEXSimulator.calculate_slippage` (lines 78-81). -/
def DEXSimulator.calculate_slippage (_s : DEXSimulator)
    (expected_amount actual_amount : ℚ) : ℚ :=
  if expected_amount = 0 then 0
  else ((expected_amount - actual_amount) / expected_amount) * 100

/-- Result record returned by `simulate_buy` (lines 99-107). -/
structure BuyResult where
  action : String
  tokens_received : ℚ
  usd_spent : ℚ
  old_price : ℚ
  new_price : ℚ
  price_change_ratio : ℚ
  slippage : ℚ
deriving Repr, DecidableEq

/-- Result record returned by `simulate_sell` (lines 128-136). -/
structure SellResult where
  action : String
  usd_received : ℚ
  tokens_spent : ℚ
  old_price : ℚ
  new_price : ℚ
  price_change_ratio : ℚ
  slippage : ℚ
deriving Repr, DecidableEq

/-- `DEXSimulator.simulate_buy` (lines 83-107).  The Python method
mutates `self`; the embedding returns the result record together with
the post-trade state. -/
def DEXSimulator.simulate_buy (s : DEXSimulator) (usd_amount : ℚ) :
    BuyResult × DEXSimulator :=
  let old_price := s.get_price
  let new_reserve_usd := s.reserve_usd + usd_amount
  let new_reserve_token := s.k / new_reserve_usd
  let tokens_out := s.reserve_token - new_reserve_token
  let expected_tokens := usd_amount / old_price
  let slippage := s.calculate_slippage expected_tokens tokens_out
  let s1 := { s with reserve_usd := new_reserve_usd,
                     reserve_token := new_reserve_token }
  let new_price := s1.get_price
  let price_change_ratio := new_price / old_price
  ({ action := "buy"
     tokens_received := tokens_out
     usd_spent := usd_amount
     old_price := old_price
     new_price := new_price
     price_change_ratio := price_change_ratio
     slippage := slippage }, s1)

/-- `DEXSimulator.simulate_sell` (lines 109-136).  Converts the desired
USD proceeds to a token quantity at the pre-trade price (using the
absolute value of the argument), then solves the invariant. -/
def DEXSimulator.simulate_sell (s : DEXSimulator) (usd_amount : ℚ) :
    SellResult × DEXSimulator :=
  let old_price := s.get_price
  let tokens_to_sell := |usd_amount| / old_price
  let new_reserve_token := s.reserve_token + tokens_to_sell
  let new_reserve_usd := s.k / new_reserve_token
  let usd_out := s.reserve_usd - new_reserve_usd
  let expected_usd := |usd_amount|
  let slippage := s.calculate_slippage expected_usd usd_out
  let s1 := { s with reserve_usd := new_reserve_usd,
                     reserve_token := new_reserve_token }
  let new_price := s1.get_price
  let price_change_ratio := new_price / old_price
  ({ action := "sell"
     usd_received := usd_out
     tokens_spent := tokens_to_sell
     old_price := old_price
     new_price := new_price
     price_change_ratio := price_change_ratio
     slippage := slippage }, s1)

/-- `calculate_x_factor` (lines 152-156): signed multiplier convention. -/
def calculate_x_factor (price_change_ratio : ℚ) : ℚ :=
  if price_change_ratio ≥ 1 then price_change_ratio
  else -1 / price_change_ratio

/-- A pool state is well formed when both reserves are strictly positive
and `k` is exactly their product — the shape any construction from
positive liquidity and positive price produces. -/
def Valid (s : DEXSimulator) : Prop :=
  0 < s.reserve_usd ∧ 0 < s.reserve_token ∧
    s.k = s.reserve_usd * s.reserve_token

theorem init_reserve_usd (L p : ℚ) (sym : String) :
    (DEXSimulator.init L p sym).reserve_usd = L / 2 := rfl

theorem init_reserve_token (L p : ℚ) (sym : String) :
    (DEXSimulator.init L p sym).reserve_token = L / 2 / p := rfl

theorem init_k (L p : ℚ) (sym : String) :
    (DEXSimulator.init L p sym).k = L / 2 * (L / 2 / p) := rfl

theorem init_valid (L p : ℚ) (sym : String) (hL : 0 < L) (hp : 0 < p) :
    Valid (DEXSimulator.init L p sym) :=
  ⟨by rw [init_reserve_usd]; positivity,
   by rw [init_reserve_token]; positivity, rfl⟩

section Unfolding

variable (s : DEXSimulator) (a : ℚ)

theorem buy_reserve_usd :
    (s.simulate_buy a).2.reserve_usd = s.reserve_usd + a := rfl

theorem buy_reserve_token :
    (s.simulate_buy a).2.reserve_token = s.k / (s.reserve_usd + a) := rfl

theorem buy_k : (s.simulate_buy a).2.k = s.k := rfl

theorem buy_tokens_received :
    (s.simulate_buy a).1.tokens_received
      = s.reserve_token - s.k / (s.reserve_usd + a) := rfl

theorem buy_old_price :
    (s.simulate_buy a).1.old_price = s.reserve_usd / s.reserve_token := rfl

theorem buy_new_price :
    (s.simulate_buy a).1.new_price
      = (s.reserve_usd + a) / (s.k / (s.reserve_usd + a)) := rfl

theorem buy_price_change_ratio :
    (s.simulate_buy a).1.price_change_ratio
      = (s.simulate_buy a).1.new_price / (s.simulate_buy a).1.old_price := rfl

theorem buy_slippage_def :
    (s.simulate_buy a).1.slippage
      = s.calculate_slippage (a / (s.reserve_usd / s.reserve_token))
          (s.reserve_token - s.k / (s.reserve_usd + a)) := rfl

theorem sell_reserve_token :
    (s.simulate_sell a).2.reserve_token
      = s.reserve_token + |a| / (s.reserve_usd / s.reserve_token) := rfl

theorem sell_reserve_usd :
    (s.simulate_sell a).2.reserve_usd
      = s.k / (s.reserve_token + |a| / (s.reserve_usd / s.reserve_token)) :=
  rfl

theorem sell_k : (s.simulate_sell a).2.k = s.k := rfl

theorem sell_usd_received :
    (s.simulate_sell a).1.usd_received
      = s.reserve_usd
        - s.k / (s.reserve_token + |a| / (s.reserve_usd / s.reserve_token)) :=
  rfl

theorem sell_old_price :
    (s.simulate_sell a).1.old_price = s.reserve_usd / s.reserve_token := rfl

theorem sell_new_price :
    (s.simulate_sell a).1.new_price
      = (s.simulate_sell a).2.reserve_usd
          / (s.simulate_sell a).2.reserve_token := rfl

theorem sell_price_change_ratio :
    (s.simulate_sell a).1.price_change_ratio
      = (s.simulate_sell a).1.new_price / (s.simulate_sell a).1.old_price :=
  rfl

theorem sell_slippage_def :
    (s.simulate_sell a).1.slippage
      = s.calculate_slippage (|a|) ((s.simulate_sell a).1.usd_received) := rfl

end Unfolding

section ClosedForms

variable {s : DEXSimulator} {a : ℚ}

theorem buy_reserve_token_closed (hv : Valid s) (ha : 0 < a) :
    (s.simulate_buy a).2.reserve_token
      = s.reserve_usd * s.reserve_token / (s.reserve_usd + a) := by
  obtain ⟨h1, h2, hk⟩ := hv
  rw [buy_reserve_token, hk]

theorem buy_tokens_received_closed (hv : Valid s) (ha : 0 < a) :
    (s.simulate_buy a).1.tokens_received
      = s.reserve_token * a / (s.reserve_usd + a) := by
  obtain ⟨h1, h2, hk⟩ := hv
  have hsum : (0 : ℚ) < s.reserve_usd + a := by linarith
  rw [buy_tokens_received, hk]
  field_simp
  ring

theorem buy_new_price_closed (hv : Valid s) (ha : 0 < a) :
    (s.simulate_buy a).1.new_price
      = (s.reserve_usd + a) ^ 2 / (s.reserve_usd * s.reserve_token) := by
  obtain ⟨h1, h2, hk⟩ := hv
  have hsum : (0 : ℚ) < s.reserve_usd + a := by linarith
  rw [buy_new_price, hk]
  rw [div_div_eq_mul_div]
  ring_nf

theorem buy_slippage_closed (hv : Valid s) (ha : 0 < a) :
    (s.simulate_buy a).1.slippage = 100 * a / (s.reserve_usd + a) := by
  obtain ⟨h1, h2, hk⟩ := hv
  have hsum : (0 : ℚ) < s.reserve_usd + a := by linarith
  have hexp : (0 : ℚ) < a / (s.reserve_usd / s.reserve_token) :=
    div_pos ha (div_pos h1 h2)
  rw [buy_slippage_def, DEXSimulator.calculate_slippage, if_neg (ne_of_gt hexp),
    hk]
  field_simp
  ring

theorem sell_reserve_token_closed (hv : Valid s) (ha : 0 < a) :
    (s.simulate_sell a).2.reserve_token
      = s.reserve_token * (s.reserve_usd + a) / s.reserve_usd := by
  obtain ⟨h1, h2, hk⟩ := hv
  rw [sell_reserve_token, abs_of_pos ha]
  field_simp
  ring

theorem sell_reserve_usd_closed (hv : Valid s) (ha : 0 < a) :
    (s.simulate_sell a).2.reserve_usd
      = s.reserve_usd ^ 2 / (s.reserve_usd + a) := by
  obtain ⟨h1, h2, hk⟩ := hv
  have hsum : (0 : ℚ) < s.reserve_usd + a := by linarith
  rw [sell_reserve_usd, abs_of_pos ha, hk]
  field_simp
  ring

theorem sell_usd_received_closed (hv : Valid s) (ha : 0 < a) :
    (s.simulate_sell a).1.usd_received
      = s.reserve_usd * a / (s.reserve_usd + a) := by
  obtain ⟨h1, h2, hk⟩ := hv
  have hsum : (0 : ℚ) < s.reserve_usd + a := by linarith
  rw [sell_usd_received, abs_of_pos ha, hk]
  field_simp
  ring

theorem sell_new_price_closed (hv : Valid s) (ha : 0 < a) :
    (s.simulate_sell a).1.new_price
      = s.reserve_usd ^ 3 / (s.reserve_token * (s.reserve_usd + a) ^ 2) := by
  have h1 := hv.1
  have h2 := hv.2.1
  have hsum : (0 : ℚ) < s.reserve_usd + a := by linarith
  rw [sell_new_price, sell_reserve_usd_closed hv ha,
    sell_reserve_token_closed hv ha]
  field_simp
  ring

theorem sell_slippage_closed (hv : Valid s) (ha : 0 < a) :
    (s.simulate_sell a).1.slippage = 100 * a / (s.reserve_usd + a) := by
  obtain ⟨h1, h2, hk⟩ := hv
  have hsum : (0 : ℚ) < s.reserve_usd + a := by linarith
  rw [sell_slippage_def, DEXSimulator.calculate_slippage,
    if_neg (ne_of_gt (abs_pos.mpr (ne_of_gt ha))),
    sell_usd_received_closed ⟨h1, h2, hk⟩ ha, abs_of_pos ha]
  field_simp
  ring

end ClosedForms

section Helpers

variable {s : DEXSimulator} {a : ℚ}

theorem buy_preserves_k (hv : Valid s) (ha : 0 < a) :
    (s.simulate_buy a).2.reserve_usd * (s.simulate_buy a).2.reserve_token
      = s.k := by
  obtain ⟨h1, h2, hk⟩ := hv
  have hsum : (0 : ℚ) < s.reserve_usd + a := by linarith
  rw [buy_reserve_usd, buy_reserve_token_closed ⟨h1, h2, hk⟩ ha, hk]
  field_simp

theorem sell_preserves_k (hv : Valid s) (ha : 0 < a) :
    (s.simulate_sell a).2.reserve_usd * (s.simulate_sell a).2.reserve_token
      = s.k := by
  obtain ⟨h1, h2, hk⟩ := hv
  have hsum : (0 : ℚ) < s.reserve_usd + a := by linarith
  rw [sell_reserve_usd_closed ⟨h1, h2, hk⟩ ha,
    sell_reserve_token_closed ⟨h1, h2, hk⟩ ha, hk]
  field_simp
  ring

theorem buy_valid (hv : Valid s) (ha : 0 < a) :
    Valid (s.simulate_buy a).2 := by
  have h1 := hv.1
  have h2 := hv.2.1
  have hsum : (0 : ℚ) < s.reserve_usd + a := by linarith
  refine ⟨?_, ?_, ?_⟩
  · rw [buy_reserve_usd]; exact hsum
  · rw [buy_reserve_token_closed hv ha]; positivity
  · rw [buy_k, (buy_preserves_k hv ha).symm]

theorem buy_new_price_gt_old (hv : Valid s) (ha : 0 < a) :
    (s.simulate_buy a).1.old_price < (s.simulate_buy a).1.new_price := by
  have h1 := hv.1
  have h2 := hv.2.1
  rw [buy_old_price, buy_new_price_closed hv ha,
    div_lt_div_iff h2 (by positivity)]
  nlinarith [mul_pos h2 (mul_pos ha h1), mul_pos h2 (mul_pos ha ha)]

theorem sell_new_price_lt_old (hv : Valid s) (ha : 0 < a) :
    (s.simulate_sell a).1.new_price < (s.simulate_sell a).1.old_price := by
  have h1 := hv.1
  have h2 := hv.2.1
  have hsum : (0 : ℚ) < s.reserve_usd + a := by linarith
  rw [sell_old_price, sell_new_price_closed hv ha,
    div_lt_div_iff (by positivity) h2]
  nlinarith [mul_pos (mul_pos h1 h2) (mul_pos ha (by linarith : (0:ℚ) < 2 * s.reserve_usd + a))]

theorem old_price_pos_buy (hv : Valid s) :
    0 < (s.simulate_buy a).1.old_price := by
  rw [buy_old_price]; exact div_pos hv.1 hv.2.1

theorem old_price_pos_sell (hv : Valid s) :
    0 < (s.simulate_sell a).1.old_price := by
  rw [sell_old_price]; exact div_pos hv.1 hv.2.1

end Helpers

/-- A concrete pool used to instantiate the universally quantified
theorems: liquidity $100,000 at price $0.01, as in the spec's worked
scenario. -/
def demoPool : DEXSimulator := DEXSimulator.init 100000 (1 / 100) "HEX"

/-- C1: for every pool constructed from totalLiquidityQuote > 0 and
unitPrice > 0 and every trade amount > 0, after a single `simulate_buy`
or `simulate_sell` the product `reserve_usd * reserve_token` equals the
invariant `k` frozen at construction — exactly, in rational arithmetic,
hence within the claimed relative tolerance of 1e-9. -/
theorem claim_C1_invariant_preservation (L p a : ℚ) (sym : String)
    (hL : 0 < L) (hp : 0 < p) (ha : 0 < a) :
    (((DEXSimulator.init L p sym).simulate_buy a).2.reserve_usd *
        ((DEXSimulator.init L p sym).simulate_buy a).2.reserve_token
      = (DEXSimulator.init L p sym).k) ∧
    (((DEXSimulator.init L p sym).simulate_sell a).2.reserve_usd *
        ((DEXSimulator.init L p sym).simulate_sell a).2.reserve_token
      = (DEXSimulator.init L p sym).k) :=
  ⟨buy_preserves_k (init_valid L p sym hL hp) ha,
   sell_preserves_k (init_valid L p sym hL hp) ha⟩

/-- Witness for C1 at liquidity 100000, price 0.01, trade 10000. -/
theorem claim_C1_witness :
    (0 : ℚ) < 100000 ∧ (0 : ℚ) < 1 / 100 ∧ (0 : ℚ) < 10000 ∧
    (((DEXSimulator.init 100000 (1 / 100) "HEX").simulate_buy 10000).2.reserve_usd *
        ((DEXSimulator.init 100000 (1 / 100) "HEX").simulate_buy 10000).2.reserve_token
      = (DEXSimulator.init 100000 (1 / 100) "HEX").k) ∧
    (((DEXSimulator.init 100000 (1 / 100) "HEX").simulate_sell 10000).2.reserve_usd *
        ((DEXSimulator.init 100000 (1 / 100) "HEX").simulate_sell 10000).2.reserve_token
      = (DEXSimulator.init 100000 (1 / 100) "HEX").k) :=
  ⟨by norm_num, by norm_num, by norm_num,
   claim_C1_invariant_preservation 100000 (1 / 100) 10000 "HEX"
     (by norm_num) (by norm_num) (by norm_num)⟩

/-- C3: for every validly constructed pool and every trade amount > 0,
`simulate_buy` yields `new_price > old_price` (so the price-change ratio
is ≥ 1) and `simulate_sell` yields `new_price < old_price` (so the
price-change ratio is ≤ 1). -/
theorem claim_C3_directionality (L p a : ℚ) (sym : String)
    (hL : 0 < L) (hp : 0 < p) (ha : 0 < a) :
    (((DEXSimulator.init L p sym).simulate_buy a).1.old_price
      < ((DEXSimulator.init L p sym).simulate_buy a).1.new_price) ∧
    (1 ≤ ((DEXSimulator.init L p sym).simulate_buy a).1.price_change_ratio) ∧
    (((DEXSimulator.init L p sym).simulate_sell a).1.new_price
      < ((DEXSimulator.init L p sym).simulate_sell a).1.old_price) ∧
    (((DEXSimulator.init L p sym).simulate_sell a).1.price_change_ratio ≤ 1) := by
  have hv := init_valid L p sym hL hp
  refine ⟨buy_new_price_gt_old hv ha, ?_, sell_new_price_lt_old hv ha, ?_⟩
  · rw [buy_price_change_ratio]
    exact le_of_lt ((one_lt_div (old_price_pos_buy hv)).mpr
      (buy_new_price_gt_old hv ha))
  · rw [sell_price_change_ratio]
    exact le_of_lt ((div_lt_one (old_price_pos_sell hv)).mpr
      (sell_new_price_lt_old hv ha))

/-- Witness for C3 at liquidity 100000, price 0.01, trade 10000. -/
theorem claim_C3_witness :
    (0 : ℚ) < 100000 ∧ (0 : ℚ) < 1 / 100 ∧ (0 : ℚ) < 10000 ∧
    (((DEXSimulator.init 100000 (1 / 100) "HEX").simulate_buy 10000).1.old_price
      < ((DEXSimulator.init 100000 (1 / 100) "HEX").simulate_buy 10000).1.new_price) ∧
    (1 ≤ ((DEXSimulator.init 100000 (1 / 100) "HEX").simulate_buy 10000).1.price_change_ratio) ∧
    (((DEXSimulator.init 100000 (1 / 100) "HEX").simulate_sell 10000).1.new_price
      < ((DEXSimulator.init 100000 (1 / 100) "HEX").simulate_sell 10000).1.old_price) ∧
    (((DEXSimulator.init 100000 (1 / 100) "HEX").simulate_sell 10000).1.price_change_ratio ≤ 1) :=
  ⟨by norm_num, by norm_num, by norm_num,
   claim_C3_directionality 100000 (1 / 100) 10000 "HEX"
     (by norm_num) (by norm_num) (by norm_num)⟩

/-- C7: `calculate_x_factor` is a pure function of the price-change
ratio returning the ratio itself when it is ≥ 1 and `-1 / ratio` when it
is < 1; in particular it maps 2.0 to 2.0, 0.5 to -2.0 and 1.0 to 1.0. -/
theorem claim_C7_x_factor_convention :
    (∀ r : ℚ, 1 ≤ r → calculate_x_factor r = r) ∧
    (∀ r : ℚ, r < 1 → calculate_x_factor r = -1 / r) ∧
    calculate_x_factor 2 = 2 ∧
    calculate_x_factor (1 / 2) = -2 ∧
    calculate_x_factor 1 = 1 := by
  refine ⟨fun r hr => ?_, fun r hr => ?_, ?_, ?_, ?_⟩
  · simp only [calculate_x_factor]
    exact if_pos hr
  · simp only [calculate_x_factor]
    exact if_neg (not_le.mpr hr)
  · norm_num [calculate_x_factor]
  · norm_num [calculate_x_factor]
  · norm_num [calculate_x_factor]

/-- C10: `simulate_sell` depends only on the magnitude of its argument:
for every pool state and every nonzero amount, selling `x` and selling
`-x` return identical results and identical post-trade states. -/
theorem claim_C10_sell_sign_insensitive (s : DEXSimulator) (x : ℚ)
    (hx : x ≠ 0) :
    s.simulate_sell x = s.simulate_sell (-x) := by
  simp only [DEXSimulator.simulate_sell, abs_neg]

/-- Witness for C10 on the demo pool at x = 5. -/
theorem claim_C10_witness :
    (5 : ℚ) ≠ 0 ∧ demoPool.simulate_sell 5 = demoPool.simulate_sell (-5) :=
  ⟨by norm_num, claim_C10_sell_sign_insensitive demoPool 5 (by norm_num)⟩

/-- C4: output bounds — for every validly constructed pool and every
trade amount > 0, the buy's token output and the sell's USD output are
strictly positive and strictly below the corresponding pre-trade
reserve, and both post-trade reserves stay strictly positive for either
operation. -/
theorem claim_C4_output_bounds (L p a : ℚ) (sym : String)
    (hL : 0 < L) (hp : 0 < p) (ha : 0 < a) :
    (0 < ((DEXSimulator.init L p sym).simulate_buy a).1.tokens_received) ∧
    (((DEXSimulator.init L p sym).simulate_buy a).1.tokens_received
      < (DEXSimulator.init L p sym).reserve_token) ∧
    (0 < ((DEXSimulator.init L p sym).simulate_sell a).1.usd_received) ∧
    (((DEXSimulator.init L p sym).simulate_sell a).1.usd_received
      < (DEXSimulator.init L p sym).reserve_usd) ∧
    (0 < ((DEXSimulator.init L p sym).simulate_buy a).2.reserve_usd) ∧
    (0 < ((DEXSimulator.init L p sym).simulate_buy a).2.reserve_token) ∧
    (0 < ((DEXSimulator.init L p sym).simulate_sell a).2.reserve_usd) ∧
    (0 < ((DEXSimulator.init L p sym).simulate_sell a).2.reserve_token) := by
  set s := DEXSimulator.init L p sym with hs
  have hv : Valid s := init_valid L p sym hL hp
  have h1 := hv.1
  have h2 := hv.2.1
  have hsum : (0 : ℚ) < s.reserve_usd + a := by linarith
  refine ⟨?_, ?_, ?_, ?_, ?_, ?_, ?_, ?_⟩
  · rw [buy_tokens_received_closed hv ha]; positivity
  · rw [buy_tokens_received_closed hv ha, div_lt_iff hsum]
    nlinarith [mul_pos h2 h1]
  · rw [sell_usd_received_closed hv ha]; positivity
  · rw [sell_usd_received_closed hv ha, div_lt_iff hsum]
    nlinarith [mul_pos h1 h1]
  · rw [buy_reserve_usd]; exact hsum
  · rw [buy_reserve_token_closed hv ha]; positivity
  · rw [sell_reserve_usd_closed hv ha]; positivity
  · rw [sell_reserve_token_closed hv ha]; positivity

/-- Witness for C4 at liquidity 100000, price 0.01, trade 10000. -/
theorem claim_C4_witness :
    (0 : ℚ) < 100000 ∧ (0 : ℚ) < 1 / 100 ∧ (0 : ℚ) < 10000 ∧
    (0 < ((DEXSimulator.init 100000 (1 / 100) "HEX").simulate_buy 10000).1.tokens_received) ∧
    (((DEXSimulator.init 100000 (1 / 100) "HEX").simulate_buy 10000).1.tokens_received
      < (DEXSimulator.init 100000 (1 / 100) "HEX").reserve_token) ∧
    (0 < ((DEXSimulator.init 100000 (1 / 100) "HEX").simulate_sell 10000).1.usd_received) ∧
    (((DEXSimulator.init 100000 (1 / 100) "HEX").simulate_sell 10000).1.usd_received
      < (DEXSimulator.init 100000 (1 / 100) "HEX").reserve_usd) ∧
    (0 < ((DEXSimulator.init 100000 (1 / 100) "HEX").simulate_buy 10000).2.reserve_usd) ∧
    (0 < ((DEXSimulator.init 100000 (1 / 100) "HEX").simulate_buy 10000).2.reserve_token) ∧
    (0 < ((DEXSimulator.init 100000 (1 / 100) "HEX").simulate_sell 10000).2.reserve_usd) ∧
    (0 < ((DEXSimulator.init 100000 (1 / 100) "HEX").simulate_sell 10000).2.reserve_token) :=
  ⟨by norm_num, by norm_num, by norm_num,
   claim_C4_output_bounds 100000 (1 / 100) 10000 "HEX"
     (by norm_num) (by norm_num) (by norm_num)⟩

/-- C5: non-negative slippage — for every validly constructed pool and
every trade amount > 0, both operations report slippage ≥ 0; the sell's
USD output never exceeds the linear expectation (the amount itself) and
the buy's token output never exceeds `amount / old_price`. -/
theorem claim_C5_slippage_nonneg (L p a : ℚ) (sym : String)
    (hL : 0 < L) (hp : 0 < p) (ha : 0 < a) :
    (0 ≤ ((DEXSimulator.init L p sym).simulate_buy a).1.slippage) ∧
    (0 ≤ ((DEXSimulator.init L p sym).simulate_sell a).1.slippage) ∧
    (((DEXSimulator.init L p sym).simulate_sell a).1.usd_received ≤ a) ∧
    (((DEXSimulator.init L p sym).simulate_buy a).1.tokens_received
      ≤ a / ((DEXSimulator.init L p sym).simulate_buy a).1.old_price) := by
  set s := DEXSimulator.init L p sym with hs
  have hv : Valid s := init_valid L p sym hL hp
  have h1 := hv.1
  have h2 := hv.2.1
  have hsum : (0 : ℚ) < s.reserve_usd + a := by linarith
  refine ⟨?_, ?_, ?_, ?_⟩
  · rw [buy_slippage_closed hv ha]; positivity
  · rw [sell_slippage_closed hv ha]; positivity
  · rw [sell_usd_received_closed hv ha, div_le_iff hsum]
    nlinarith [mul_pos ha ha]
  · rw [buy_tokens_received_closed hv ha, buy_old_price,
      div_div_eq_mul_div, div_le_div_iff hsum h1]
    nlinarith [mul_pos (mul_pos h2 ha) ha]

/-- Witness for C5 at liquidity 100000, price 0.01, trade 10000. -/
theorem claim_C5_witness :
    (0 : ℚ) < 100000 ∧ (0 : ℚ) < 1 / 100 ∧ (0 : ℚ) < 10000 ∧
    (0 ≤ ((DEXSimulator.init 100000 (1 / 100) "HEX").simulate_buy 10000).1.slippage) ∧
    (0 ≤ ((DEXSimulator.init 100000 (1 / 100) "HEX").simulate_sell 10000).1.slippage) ∧
    (((DEXSimulator.init 100000 (1 / 100) "HEX").simulate_sell 10000).1.usd_received ≤ 10000) ∧
    (((DEXSimulator.init 100000 (1 / 100) "HEX").simulate_buy 10000).1.tokens_received
      ≤ 10000 / ((DEXSimulator.init 100000 (1 / 100) "HEX").simulate_buy 10000).1.old_price) :=
  ⟨by norm_num, by norm_num, by norm_num,
   claim_C5_slippage_nonneg 100000 (1 / 100) 10000 "HEX"
     (by norm_num) (by norm_num) (by norm_num)⟩

theorem slip_frac_mono {r a1 a2 : ℚ} (hr : 0 < r) (h1 : 0 < a1)
    (h12 : a1 ≤ a2) : 100 * a1 / (r + a1) ≤ 100 * a2 / (r + a2) := by
  have h2 : 0 < a2 := lt_of_lt_of_le h1 h12
  rw [div_le_div_iff (by linarith) (by linarith)]
  nlinarith [mul_nonneg (sub_nonneg.mpr h12) hr.le]

/-- C6: slippage monotonicity — with the pool state fixed, for any two
trade amounts 0 < a1 ≤ a2, the slippage reported by `simulate_buy a2` is
at least that of `simulate_buy a1` (each applied to the same pre-trade
state), and likewise for `simulate_sell`. -/
theorem claim_C6_slippage_monotone (L p a1 a2 : ℚ) (sym : String)
    (hL : 0 < L) (hp : 0 < p) (ha1 : 0 < a1) (h12 : a1 ≤ a2) :
    (((DEXSimulator.init L p sym).simulate_buy a1).1.slippage
      ≤ ((DEXSimulator.init L p sym).simulate_buy a2).1.slippage) ∧
    (((DEXSimulator.init L p sym).simulate_sell a1).1.slippage
      ≤ ((DEXSimulator.init L p sym).simulate_sell a2).1.slippage) := by
  set s := DEXSimulator.init L p sym with hs
  have hv : Valid s := init_valid L p sym hL hp
  have ha2 : 0 < a2 := lt_of_lt_of_le ha1 h12
  constructor
  · rw [buy_slippage_closed hv ha1, buy_slippage_closed hv ha2]
    exact slip_frac_mono hv.1 ha1 h12
  · rw [sell_slippage_closed hv ha1, sell_slippage_closed hv ha2]
    exact slip_frac_mono hv.1 ha1 h12

/-- Witness for C6 at liquidity 100000, price 0.01, amounts 100 ≤ 10000. -/
theorem claim_C6_witness :
    (0 : ℚ) < 100000 ∧ (0 : ℚ) < 1 / 100 ∧ (0 : ℚ) < 100 ∧
    (100 : ℚ) ≤ 10000 ∧
    (((DEXSimulator.init 100000 (1 / 100) "HEX").simulate_buy 100).1.slippage
      ≤ ((DEXSimulator.init 100000 (1 / 100) "HEX").simulate_buy 10000).1.slippage) ∧
    (((DEXSimulator.init 100000 (1 / 100) "HEX").simulate_sell 100).1.slippage
      ≤ ((DEXSimulator.init 100000 (1 / 100) "HEX").simulate_sell 10000).1.slippage) :=
  ⟨by norm_num, by norm_num, by norm_num, by norm_num,
   claim_C6_slippage_monotone 100000 (1 / 100) 100 10000 "HEX"
     (by norm_num) (by norm_num) (by norm_num) (by norm_num)⟩

/-- C8: the spec's concrete scenario — liquidity 100000 at price 0.01
gives reserves 50000 USD and 5,000,000 tokens with invariant 2.5e11;
buying 10000 USD moves the USD reserve to 60000, the token reserve to
2.5e11 / 60000 = 12500000/3 (≈ 4,166,666.67), pays out 2500000/3
(≈ 833,333.33) tokens, and yields new price 9/625 = 0.0144 and
price-change ratio 36/25 = 1.44. -/
theorem claim_C8_concrete_scenario :
    (DEXSimulator.init 100000 (1 / 100) "HEX").reserve_usd = 50000 ∧
    (DEXSimulator.init 100000 (1 / 100) "HEX").reserve_token = 5000000 ∧
    (DEXSimulator.init 100000 (1 / 100) "HEX").k = 250000000000 ∧
    ((DEXSimulator.init 100000 (1 / 100) "HEX").simulate_buy 10000).2.reserve_usd
      = 60000 ∧
    ((DEXSimulator.init 100000 (1 / 100) "HEX").simulate_buy 10000).2.reserve_token
      = 250000000000 / 60000 ∧
    ((DEXSimulator.init 100000 (1 / 100) "HEX").simulate_buy 10000).2.reserve_token
      = 12500000 / 3 ∧
    ((DEXSimulator.init 100000 (1 / 100) "HEX").simulate_buy 10000).1.tokens_received
      = 2500000 / 3 ∧
    ((DEXSimulator.init 100000 (1 / 100) "HEX").simulate_buy 10000).1.new_price
      = 9 / 625 ∧
    ((DEXSimulator.init 100000 (1 / 100) "HEX").simulate_buy 10000).1.price_change_ratio
      = 36 / 25 := by
  refine ⟨?_, ?_, ?_, ?_, ?_, ?_, ?_, ?_, ?_⟩ <;>
    norm_num [DEXSimulator.init, DEXSimulator.simulate_buy,
      DEXSimulator.get_price, DEXSimulator.calculate_slippage]

/-- C9: round-trip non-reversibility — for every validly constructed
pool and every amount A > 0, a `simulate_buy A` followed by a
`simulate_sell A` does not restore the original reserves: the final USD
reserve is strictly above the initial one and the final token reserve is
strictly below the initial one. -/
theorem claim_C9_roundtrip_nonreversible (L p a : ℚ) (sym : String)
    (hL : 0 < L) (hp : 0 < p) (ha : 0 < a) :
    ((DEXSimulator.init L p sym).reserve_usd
      < (((DEXSimulator.init L p sym).simulate_buy a).2.simulate_sell a).2.reserve_usd) ∧
    ((((DEXSimulator.init L p sym).simulate_buy a).2.simulate_sell a).2.reserve_token
      < (DEXSimulator.init L p sym).reserve_token) := by
  set s := DEXSimulator.init L p sym with hs
  have hv : Valid s := init_valid L p sym hL hp
  have hv1 : Valid (s.simulate_buy a).2 := buy_valid hv ha
  have h1 := hv.1
  have h2 := hv.2.1
  have hsum : (0 : ℚ) < s.reserve_usd + a := by linarith
  constructor
  · rw [sell_reserve_usd_closed hv1 ha, buy_reserve_usd,
      lt_div_iff (by linarith : (0 : ℚ) < s.reserve_usd + a + a)]
    nlinarith [mul_pos ha ha]
  · rw [sell_reserve_token_closed hv1 ha, buy_reserve_token_closed hv ha,
      buy_reserve_usd, div_mul_eq_mul_div, div_div,
      div_lt_iff (by positivity : (0 : ℚ) < (s.reserve_usd + a) * (s.reserve_usd + a))]
    nlinarith [mul_pos h2 (mul_pos ha ha)]

/-- Witness for C9 at liquidity 100000, price 0.01, amount 10000. -/
theorem claim_C9_witness :
    (0 : ℚ) < 100000 ∧ (0 : ℚ) < 1 / 100 ∧ (0 : ℚ) < 10000 ∧
    ((DEXSimulator.init 100000 (1 / 100) "HEX").reserve_usd
      < (((DEXSimulator.init 100000 (1 / 100) "HEX").simulate_buy 10000).2.simulate_sell 10000).2.reserve_usd) ∧
    ((((DEXSimulator.init 100000 (1 / 100) "HEX").simulate_buy 10000).2.simulate_sell 10000).2.reserve_token
      < (DEXSimulator.init 100000 (1 / 100) "HEX").reserve_token) :=
  ⟨by norm_num, by norm_num, by norm_num,
   claim_C9_roundtrip_nonreversible 100000 (1 / 100) 10000 "HEX"
     (by norm_num) (by norm_num) (by norm_num)⟩

/-- C2 counterexample: the constructor performs no input validation.
Constructing with totalLiquidityUsd = -100 ≤ 0 and unitPriceUsd = 1
succeeds and produces a pool state with negative reserves — no
InvalidInput error exists in `DEXSimulator.__init__`, refuting the
claim that construction with non-positive inputs cannot produce a pool
state. -/
theorem claim_C2_counterexample :
    (-100 : ℚ) ≤ 0 ∧
    (DEXSimulator.init (-100) 1 "HEX").reserve_usd = -50 ∧
    (DEXSimulator.init (-100) 1 "HEX").reserve_token = -50 ∧
    (DEXSimulator.init (-100) 1 "HEX").k = 2500 := by
  refine ⟨by norm_num, ?_, ?_, ?_⟩ <;> norm_num [DEXSimulator.init]

/-- C2 amended: construction does not validate its inputs — for every
totalLiquidityUsd ≤ 0 and every unitPriceUsd > 0, `DEXSimulator.__init__`
still produces a pool state, with reserve_usd = totalLiquidityUsd / 2
and both reserves non-positive; no InvalidInput error is raised. -/
theorem claim_C2_amended_no_validation (L p : ℚ) (sym : String)
    (hL : L ≤ 0) (hp : 0 < p) :
    (DEXSimulator.init L p sym).reserve_usd = L / 2 ∧
    (DEXSimulator.init L p sym).reserve_usd ≤ 0 ∧
    (DEXSimulator.init L p sym).reserve_token ≤ 0 ∧
    (DEXSimulator.init L p sym).k
      = (DEXSimulator.init L p sym).reserve_usd *
          (DEXSimulator.init L p sym).reserve_token := by
  refine ⟨rfl, ?_, ?_, rfl⟩
  · rw [init_reserve_usd]; linarith
  · rw [init_reserve_token]
    exact div_nonpos_iff.mpr (Or.inr ⟨by linarith, hp.le⟩)

/-- Witness for the amended C2 at liquidity -100, price 1. -/
theorem claim_C2_witness :
    ((-100 : ℚ) ≤ 0) ∧ ((0 : ℚ) < 1) ∧
    ((DEXSimulator.init (-100) 1 "SCAM").reserve_usd = -100 / 2 ∧
     (DEXSimulator.init (-100) 1 "SCAM").reserve_usd ≤ 0 ∧
     (DEXSimulator.init (-100) 1 "SCAM").reserve_token ≤ 0 ∧
     (DEXSimulator.init (-100) 1 "SCAM").k
       = (DEXSimulator.init (-100) 1 "SCAM").reserve_usd *
           (DEXSimulator.init (-100) 1 "SCAM").reserve_token) :=
  ⟨by norm_num, by norm_num,
   claim_C2_amended_no_validation (-100) 1 "SCAM" (by norm_num) (by norm_num)⟩

end LiquiditySim
